import Mathlib

/-!
Shallow embedding of `http2-auto-window-size` (`src/library/index.ts`).

The library installs a self-tuning flow-control window controller on an
HTTP/2 session:

* `setupSessionPing` issues periodic pings and feeds each successful ping
  duration to a callback, rescheduling the next ping after
  `duration * pingIntervalFactor`.
* `setupAutoWindowSize` keeps `recentRTT` / `minRTT` from those durations,
  counts bytes delivered to streams, and on a `setInterval` tick computes a
  bandwidth-delay-product window size and possibly applies it via
  `session.setLocalWindowSize`.

Modelling conventions:

* Times (`Date.now()` values) are integers (milliseconds) of type `ℤ`;
  ping durations and the derived rates are exact rationals `ℚ`
  (JavaScript numbers are modelled exactly, without floating point);
  byte counts are `ℕ`; window sizes are `ℤ`.
* `undefined` values (`recentRTT`, `minRTT`, `initialWindowSize`,
  `session.state.effectiveLocalWindowSize`) are `Option`s.
* `Math.ceil` is `Int.ceil`; `Math.min(minRTT ?? Infinity, d)` is modelled
  by matching on the `Option`: `min` of `Infinity` and a finite `d` is `d`.
* The event-driven behaviour (interval timers, ping completions, the
  `close` event, data arriving on streams) is modelled as a step function
  on an explicit controller state, producing the list of externally
  visible calls (`session.setLocalWindowSize`, `session.ping` issuance,
  the observer callbacks) made during that step.
-/

/-- Source constant `BANDWIDTH_CALCULATION_INTERVAL_DEFAULT = 200`. -/
def BANDWIDTH_CALCULATION_INTERVAL_DEFAULT : ℚ := 200

/-- Source constant `MIN_WINDOW_SIZE_DEFAULT = 64 * 1024`. -/
def MIN_WINDOW_SIZE_DEFAULT : ℤ := 64 * 1024

/-- Source constant `WINDOW_SIZE_FACTOR_DEFAULT = 2`. -/
def WINDOW_SIZE_FACTOR_DEFAULT : ℚ := 2

/-- Source constant `WINDOW_SIZE_REDUCING_RTT_THRESHOLD_FACTOR_DEFAULT = 5`. -/
def WINDOW_SIZE_REDUCING_RTT_THRESHOLD_FACTOR_DEFAULT : ℚ := 5

/-- Source constant `INITIAL_PING_DURATION_REFERENCE_DEFAULT = 100`. -/
def INITIAL_PING_DURATION_REFERENCE_DEFAULT : ℚ := 100

/-- Source constant `PING_INTERVAL_FACTOR_DEFAULT = 50`. -/
def PING_INTERVAL_FACTOR_DEFAULT : ℚ := 50

/-- The `AutoWindowSizeOptions` type, with the defaults applied by the
destructuring in `setupAutoWindowSize`'s parameter list. -/
structure AutoWindowSizeOptions where
  bandwidthCalculationInterval : ℚ := BANDWIDTH_CALCULATION_INTERVAL_DEFAULT
  initialWindowSize : Option ℤ := none
  minWindowSize : ℤ := MIN_WINDOW_SIZE_DEFAULT
  windowSizeFactor : ℚ := WINDOW_SIZE_FACTOR_DEFAULT
  windowSizeReducingRTTThresholdFactor : ℚ :=
    WINDOW_SIZE_REDUCING_RTT_THRESHOLD_FACTOR_DEFAULT
  initialPingDurationReference : ℚ := INITIAL_PING_DURATION_REFERENCE_DEFAULT
  pingIntervalFactor : ℚ := PING_INTERVAL_FACTOR_DEFAULT
deriving DecidableEq

/-- Result of one `setInterval` tick of `setupAutoWindowSize`
(source lines 100-140): the new values of the mutable variables
`receivedSinceLastBandwidthCalculation` and `bandwidthCalculatedAt`, and
the argument of the `session.setLocalWindowSize` call made during the tick
(`none` when the tick makes no call). -/
structure TickResult where
  received : ℕ
  bandwidthCalculatedAt : ℤ
  setWindowSize : Option ℤ
deriving DecidableEq

/-- One tick of the `setInterval` callback in `setupAutoWindowSize`
(source lines 100-140), as a pure function of the captured state
(`recentRTT`, `minRTT`, `receivedSinceLastBandwidthCalculation`,
`bandwidthCalculatedAt`), the current time `now = Date.now()`, and the
session's `state.effectiveLocalWindowSize`. Mirrors the source
statement by statement:

* `duration = now - bandwidthCalculatedAt`; the accumulator is read and
  reset to `0` and `bandwidthCalculatedAt = now` before any guard;
* `if (duration <= 0) return;`
* `if (effectiveLocalWindowSize === undefined) return;`
* `bandwidth = received / duration`;
* `if (minRTT === undefined || recentRTT === undefined) return;`
* `refWindowSize = bandwidth * minRTT`;
* `windowSize = Math.max(Math.ceil(refWindowSize * windowSizeFactor),
  MIN_WINDOW_SIZE_DEFAULT)` — note the source uses the constant
  `MIN_WINDOW_SIZE_DEFAULT` here, not the configured `minWindowSize`;
* the hysteresis guard and the `setLocalWindowSize` call. -/
def tick (options : AutoWindowSizeOptions) (recentRTT minRTT : Option ℚ)
    (received : ℕ) (bandwidthCalculatedAt now : ℤ)
    (effectiveLocalWindowSize : Option ℤ) : TickResult :=
  let duration : ℤ := now - bandwidthCalculatedAt
  if duration ≤ 0 then
    { received := 0, bandwidthCalculatedAt := now, setWindowSize := none }
  else
    match effectiveLocalWindowSize with
    | none => { received := 0, bandwidthCalculatedAt := now, setWindowSize := none }
    | some eff =>
      let bandwidth : ℚ := (received : ℚ) / (duration : ℚ)
      match minRTT, recentRTT with
      | some minRTT, some recentRTT =>
        let refWindowSize : ℚ := bandwidth * minRTT
        let windowSize : ℤ :=
          max ⌈refWindowSize * options.windowSizeFactor⌉ MIN_WINDOW_SIZE_DEFAULT
        if windowSize > eff ∨
            (windowSize < eff ∧
              recentRTT > minRTT * options.windowSizeReducingRTTThresholdFactor) then
          { received := 0, bandwidthCalculatedAt := now, setWindowSize := some windowSize }
        else
          { received := 0, bandwidthCalculatedAt := now, setWindowSize := none }
      | _, _ => { received := 0, bandwidthCalculatedAt := now, setWindowSize := none }

/-- The ping-duration callback passed to `setupSessionPing` by
`setupAutoWindowSize` (source lines 89-94):
`recentRTT = duration; minRTT = Math.min(minRTT ?? Infinity, recentRTT)`.
Returns the new `(recentRTT, minRTT)` pair. `Math.min(Infinity, d) = d`
for a finite duration `d`, so the `none` case yields `duration`. -/
def pingDurationCallback (recentRTT minRTT : Option ℚ) (duration : ℚ) :
    Option ℚ × Option ℚ :=
  (some duration,
    some (match minRTT with
      | none => duration
      | some m => min m duration))

/-- Folds `pingDurationCallback` over a list of successful ping durations,
starting from given `recentRTT` / `minRTT` values. Models a sequence of
successful ping completions (failed pings never reach the callback, see
the `if (error) return;` branch of `setupSessionPing`). -/
def runPingCallbacks (durations : List ℚ) (recentRTT minRTT : Option ℚ) :
    Option ℚ × Option ℚ :=
  durations.foldl (fun s d => pingDurationCallback s.1 s.2 d) (recentRTT, minRTT)

/-- The externally visible calls the controller makes on its environment:
`session.setLocalWindowSize(size)`, the `onSetLocalWindowSize(size)`
observer, the `onPingCallback(duration)` observer, and issuing a probe via
`session.ping(...)`. -/
inductive Call where
  | setWindow (size : ℤ)
  | observerWindow (size : ℤ)
  | observerPing (duration : ℚ)
  | issueProbe
deriving DecidableEq

/-- Outcome of a `session.ping` completion: the `(error, duration)`
callback arguments, either an error or a successful duration. -/
inductive PingOutcome where
  | failure
  | ok (duration : ℚ)
deriving DecidableEq

/-- The mutable state of one controller instance: the closure variables of
`setupAutoWindowSize` and `setupSessionPing` together with the timer and
session status they observe.

* `closed` — the session has been destroyed and its `close` event fired
  (for `Http2Session`, `close` is emitted once the session is destroyed,
  so `session.destroyed` reads true from then on);
* `tickTimerArmed` — the `setInterval` bandwidth timer is armed
  (cleared by the `close` handler at source line 154);
* `pingTimer` — the interval of the armed ping timer from
  `setupSessionPing`, `none` when cleared;
* `probeInFlight` — number of `session.ping` calls whose completion
  callback has not fired yet;
* `recentRTT`, `minRTT`, `received`
  (`receivedSinceLastBandwidthCalculation`), `bandwidthCalculatedAt` —
  the closure variables. -/
structure SystemState where
  closed : Bool
  tickTimerArmed : Bool
  pingTimer : Option ℚ
  probeInFlight : ℕ
  recentRTT : Option ℚ
  minRTT : Option ℚ
  received : ℕ
  bandwidthCalculatedAt : ℤ
deriving DecidableEq

/-- Events delivered to the controller by the event loop. -/
inductive Event where
  /-- The session's `close` event fires (the session is destroyed). -/
  | close
  /-- A chunk is pushed to a stream: `stream.push(data)` with `data` of
  the given byte length, or `null` (modelled as `none`). -/
  | dataChunk (bytes : Option ℕ)
  /-- The bandwidth `setInterval` timer fires at time `now`, with the
  session reporting the given `state.effectiveLocalWindowSize`. -/
  | tickFire (now : ℤ) (effectiveLocalWindowSize : Option ℤ)
  /-- The ping interval timer fires (runs `ping()`). -/
  | pingTimerFire
  /-- The completion callback of an in-flight `session.ping` fires. -/
  | pingComplete (outcome : PingOutcome)
deriving DecidableEq

/-- One event-loop step of the controller: how each event handler in the
source transforms the state, and the external calls it makes.

* `close`: both `close` handlers run (`clearInterval(timer)` at source
  lines 154 and 165), clearing the tick timer and the ping timer.
* `dataChunk`: the patched `stream.push` (source lines 146-152) adds
  `data.length` to the accumulator; `null` adds nothing.
* `tickFire`: the `setInterval` callback (source lines 100-140) runs via
  `tick`; when it applies a window size it calls
  `session.setLocalWindowSize(windowSize)` then
  `onSetLocalWindowSize?.(windowSize)`.
* `pingTimerFire`: `ping()` (source lines 176-190): if
  `session.destroyed`, clears the ping timer and issues nothing;
  otherwise calls `session.ping(...)`, putting a probe in flight.
* `pingComplete`: the `session.ping` completion callback (source lines
  182-189): on error it returns at once; otherwise it runs
  `callback(duration)` (which updates `recentRTT` / `minRTT` and calls
  `onPingCallback?.(duration)`) and `update(duration)` (which re-arms the
  ping timer with interval `duration * pingIntervalFactor`). Note the
  source callback does not consult `session.destroyed`. -/
def step (options : AutoWindowSizeOptions) (s : SystemState) (e : Event) :
    SystemState × List Call :=
  match e with
  | .close =>
    ({ s with closed := true, tickTimerArmed := false, pingTimer := none }, [])
  | .dataChunk bytes =>
    match bytes with
    | none => (s, [])
    | some n => ({ s with received := s.received + n }, [])
  | .tickFire now effectiveLocalWindowSize =>
    if s.tickTimerArmed then
      let r := tick options s.recentRTT s.minRTT s.received
        s.bandwidthCalculatedAt now effectiveLocalWindowSize
      ({ s with
          received := r.received
          bandwidthCalculatedAt := r.bandwidthCalculatedAt },
        match r.setWindowSize with
        | some w => [.setWindow w, .observerWindow w]
        | none => [])
    else (s, [])
  | .pingTimerFire =>
    if s.pingTimer.isSome then
      if s.closed then ({ s with pingTimer := none }, [])
      else ({ s with probeInFlight := s.probeInFlight + 1 }, [.issueProbe])
    else (s, [])
  | .pingComplete outcome =>
    if 0 < s.probeInFlight then
      match outcome with
      | .failure => ({ s with probeInFlight := s.probeInFlight - 1 }, [])
      | .ok duration =>
        let rtts := pingDurationCallback s.recentRTT s.minRTT duration
        ({ s with
            probeInFlight := s.probeInFlight - 1
            recentRTT := rtts.1
            minRTT := rtts.2
            pingTimer := some (duration * options.pingIntervalFactor) },
          [.observerPing duration])
    else (s, [])

/-- Runs a list of events through `step`, collecting all external calls in
order. -/
def run (options : AutoWindowSizeOptions) (s : SystemState) :
    List Event → SystemState × List Call
  | [] => (s, [])
  | e :: es =>
    let r := step options s e
    let r' := run options r.1 es
    (r'.1, r.2 ++ r'.2)

/-- Model of `setupAutoWindowSize(session, options)` (source lines 63-155), run at
time `now` on a session with the given `destroyed` status. Returns
`Except.error ()` when the `assert(initialWindowSize >= minWindowSize)` at
source line 78 throws — in that case nothing else has happened: no window
size was applied, no timer armed, no probe issued. Otherwise returns the
initial `SystemState` and the calls made synchronously during setup, in
order:

* `session.setLocalWindowSize(initialWindowSize)` when an initial window
  size was supplied (source line 79) — with no observer callback;
* `setupSessionPing` runs `ping()` (issuing an immediate probe unless the
  session is destroyed) and then `update(initialPingDurationReference)`,
  arming the ping timer with interval
  `initialPingDurationReference * pingIntervalFactor`;
* the bandwidth `setInterval` timer is armed. -/
def setupAutoWindowSize (options : AutoWindowSizeOptions) (destroyed : Bool)
    (now : ℤ) : Except Unit (SystemState × List Call) :=
  let go : List Call → SystemState × List Call := fun initCalls =>
    ({ closed := destroyed
       tickTimerArmed := true
       pingTimer :=
         some (options.initialPingDurationReference * options.pingIntervalFactor)
       probeInFlight := if destroyed then 0 else 1
       recentRTT := none
       minRTT := none
       received := 0
       bandwidthCalculatedAt := now },
      initCalls ++ if destroyed then [] else [Call.issueProbe])
  match options.initialWindowSize with
  | some initialWindowSize =>
    if initialWindowSize ≥ options.minWindowSize then
      .ok (go [Call.setWindow initialWindowSize])
    else
      .error ()
  | none => .ok (go [])

/-- Candidate window size as the specification words it:
`candidate = ceil(max(bandwidth × minRTT × windowSizeFactor, minWindowSize))`
with `minWindowSize` the *configured* minimum window floor. Stated from
the spec for comparison with the windowSize the source computes. -/
def candidateSpec (options : AutoWindowSizeOptions) (bandwidth minRTT : ℚ) : ℤ :=
  ⌈max (bandwidth * minRTT * options.windowSizeFactor)
    (options.minWindowSize : ℚ)⌉

/-! ### Helper lemmas -/

lemma runPingCallbacks_cons (d : ℚ) (ds : List ℚ) (r m : Option ℚ) :
    runPingCallbacks (d :: ds) r m =
      runPingCallbacks ds (pingDurationCallback r m d).1 (pingDurationCallback r m d).2 := by
  simp [runPingCallbacks, List.foldl_cons]

lemma runPingCallbacks_some (ds : List ℚ) (r m : ℚ) :
    runPingCallbacks ds (some r) (some m) =
      (some (ds.foldl (fun _ x => x) r), some (ds.foldl min m)) := by
  induction ds generalizing r m with
  | nil => simp [runPingCallbacks]
  | cons d ds ih =>
    rw [runPingCallbacks_cons]
    simp only [pingDurationCallback]
    rw [ih]
    simp [List.foldl_cons]

lemma foldl_min_le_init (ds : List ℚ) (m : ℚ) : ds.foldl min m ≤ m := by
  induction ds generalizing m with
  | nil => simp
  | cons d ds ih => exact le_trans (ih (min m d)) (min_le_left m d)

lemma foldl_min_le_mem (x : ℚ) :
    ∀ (ds : List ℚ), x ∈ ds → ∀ m : ℚ, ds.foldl min m ≤ x
  | d :: ds, hx, m => by
    rcases List.mem_cons.1 hx with h | h
    · subst h
      exact le_trans (foldl_min_le_init ds (min m x)) (min_le_right m x)
    · exact foldl_min_le_mem x ds h (min m d)

lemma foldl_min_mem (ds : List ℚ) : ∀ m : ℚ, ds.foldl min m ∈ m :: ds := by
  induction ds with
  | nil => intro m; simp
  | cons d ds ih =>
    intro m
    simp only [List.foldl_cons]
    rcases List.mem_cons.1 (ih (min m d)) with h | h
    · rw [h]
      rcases min_cases m d with ⟨he, _⟩ | ⟨he, _⟩ <;> rw [he] <;> simp
    · exact List.mem_cons_of_mem m (List.mem_cons_of_mem d h)

lemma foldl_last (ds : List ℚ) (r : ℚ) :
    some (ds.foldl (fun _ x => x) r) = (r :: ds).getLast? := by
  induction ds generalizing r with
  | nil => simp
  | cons d ds ih =>
    rw [List.foldl_cons, ih d, List.getLast?_cons_cons]

/-! ### Claim theorems -/

/-- C5: for every sequence of successful probe completions with durations
`d :: ds`, the resulting `minRTT` is the minimum of the durations seen so
far (it is one of them and a lower bound of all of them), `recentRTT` is
the last duration, and appending one more successful probe can only keep
or decrease `minRTT` (monotonically non-increasing). -/
theorem C5_minRTT_min_recentRTT_last (d : ℚ) (ds : List ℚ) :
    ∃ m : ℚ, (runPingCallbacks (d :: ds) none none).2 = some m ∧
      m ∈ d :: ds ∧ (∀ x ∈ d :: ds, m ≤ x) ∧
      (runPingCallbacks (d :: ds) none none).1 = (d :: ds).getLast? ∧
      ∀ e : ℚ, ∃ m' : ℚ,
        (runPingCallbacks (d :: (ds ++ [e])) none none).2 = some m' ∧ m' ≤ m := by
  refine ⟨ds.foldl min d, ?_, ?_, ?_, ?_, ?_⟩
  · rw [runPingCallbacks_cons]
    simp only [pingDurationCallback]
    rw [runPingCallbacks_some]
  · exact foldl_min_mem ds d
  · intro x hx
    rcases List.mem_cons.1 hx with h | h
    · subst h; exact foldl_min_le_init ds x
    · exact foldl_min_le_mem x ds h d
  · rw [runPingCallbacks_cons]
    simp only [pingDurationCallback]
    rw [runPingCallbacks_some]
    exact foldl_last ds d
  · intro e
    refine ⟨min (ds.foldl min d) e, ?_, min_le_left _ _⟩
    rw [runPingCallbacks_cons]
    simp only [pingDurationCallback]
    rw [runPingCallbacks_some]
    simp [List.foldl_append]

/-- C5 witness: for the probe duration sequence `[30, 10, 20]`, the theorem
gives `minRTT = some 10` and `recentRTT = some 20`. -/
theorem C5_minRTT_min_recentRTT_last_witness :
    ∃ m : ℚ, (runPingCallbacks (30 :: [10, 20]) none none).2 = some m ∧
      m ∈ 30 :: [(10 : ℚ), 20] ∧ (∀ x ∈ 30 :: [(10 : ℚ), 20], m ≤ x) ∧
      (runPingCallbacks (30 :: [10, 20]) none none).1 = (30 :: [(10 : ℚ), 20]).getLast? ∧
      ∀ e : ℚ, ∃ m' : ℚ,
        (runPingCallbacks (30 :: ([10, 20] ++ [e])) none none).2 = some m' ∧ m' ≤ m :=
  C5_minRTT_min_recentRTT_last 30 [10, 20]

/-- C1 (failing input for the floor invariant): the source floors the
applied window size at the constant `MIN_WINDOW_SIZE_DEFAULT = 65536`, not
at the configured `minWindowSize`. With `minWindowSize = 131072`, a tick
with zero measured bandwidth, `recentRTT = 1000`, `minRTT = 1` and
effective window `200000` shrinks the window to `65536`, which is below
the configured floor. -/
theorem C1_applied_window_below_configured_floor :
    (tick { minWindowSize := 131072 } (some 1000) (some 1) 0 0 200
        (some 200000)).setWindowSize = some 65536 ∧
      (65536 : ℤ) < ({ minWindowSize := 131072 } : AutoWindowSizeOptions).minWindowSize := by
  constructor
  · norm_num [tick, MIN_WINDOW_SIZE_DEFAULT,
      WINDOW_SIZE_FACTOR_DEFAULT, WINDOW_SIZE_REDUCING_RTT_THRESHOLD_FACTOR_DEFAULT]
  · norm_num

/-- C2 (failing input for the candidate formula): on the same tick, the
window size the source computes and applies is `65536` (floored at the
constant `MIN_WINDOW_SIZE_DEFAULT`), while the spec formula
`ceil(max(bandwidth × minRTT × windowSizeFactor, minWindowSize))` with the
configured `minWindowSize = 131072` evaluates to `131072`. -/
theorem C2_candidate_differs_from_spec_formula :
    (tick { minWindowSize := 131072 } (some 1000) (some 1) 0 0 200
        (some 200000)).setWindowSize = some 65536 ∧
      candidateSpec { minWindowSize := 131072 } ((0 : ℚ) / 200) 1 = 131072 ∧
      (65536 : ℤ) ≠ 131072 := by
  refine ⟨?_, ?_, by norm_num⟩
  · norm_num [tick, MIN_WINDOW_SIZE_DEFAULT,
      WINDOW_SIZE_FACTOR_DEFAULT, WINDOW_SIZE_REDUCING_RTT_THRESHOLD_FACTOR_DEFAULT]
  · norm_num [candidateSpec, WINDOW_SIZE_FACTOR_DEFAULT]

/-- C6 counterexample: on a tick with `duration = 0` the byte accumulator
IS read and reset — starting from `receivedSinceLastBandwidthCalculation
= 100`, the skipped tick leaves the accumulator at `0`, not `100`: the
accumulated bytes are not preserved for the next tick. -/
theorem C6_skipped_tick_resets_accumulator :
    (tick {} (some 10) (some 10) 100 50 50 (some 100000)).received = 0 ∧
      (0 : ℕ) ≠ 100 := by
  constructor
  · norm_num [tick]
  · norm_num

/-- C6 amended: on every tick with `duration ≤ 0`, no window change is
applied and the RTT state is untouched (the tick never writes it), but the
byte accumulator is reset to `0` (the accumulated bytes are discarded) and
`bandwidthCalculatedAt` is updated to `now`. -/
theorem C6_skipped_tick_effects (options : AutoWindowSizeOptions)
    (recentRTT minRTT : Option ℚ) (received : ℕ)
    (bandwidthCalculatedAt now : ℤ) (effectiveLocalWindowSize : Option ℤ)
    (h : now - bandwidthCalculatedAt ≤ 0) :
    tick options recentRTT minRTT received bandwidthCalculatedAt now
        effectiveLocalWindowSize =
      { received := 0, bandwidthCalculatedAt := now, setWindowSize := none } := by
  unfold tick
  rw [if_pos h]

/-- C6 amended, witness: a concrete skipped tick (`now = 50` equal to the
previous tick time) with `100` accumulated bytes. -/
theorem C6_skipped_tick_effects_witness :
    (50 : ℤ) - 50 ≤ 0 ∧
      tick {} (some 10) (some 10) 100 50 50 (some 100000) =
        { received := 0, bandwidthCalculatedAt := 50, setWindowSize := none } :=
  ⟨by norm_num,
    C6_skipped_tick_effects {} (some 10) (some 10) 100 50 50 (some 100000)
      (by norm_num)⟩

/-- C8: on every tick taken before any successful probe (`minRTT` or
`recentRTT` still `undefined`), and on every tick where the session's
`effectiveLocalWindowSize` is `undefined`, no window change is applied. -/
theorem C8_no_window_change_without_data (options : AutoWindowSizeOptions)
    (recentRTT minRTT : Option ℚ) (received : ℕ)
    (bandwidthCalculatedAt now : ℤ) (effectiveLocalWindowSize : Option ℤ)
    (h : minRTT = none ∨ recentRTT = none ∨ effectiveLocalWindowSize = none) :
    (tick options recentRTT minRTT received bandwidthCalculatedAt now
        effectiveLocalWindowSize).setWindowSize = none := by
  simp only [tick]
  by_cases hd : now - bandwidthCalculatedAt ≤ 0
  · rw [if_pos hd]
  · rw [if_neg hd]
    rcases h with h | h | h <;> subst h
    · cases effectiveLocalWindowSize with
      | none => rfl
      | some eff => cases recentRTT <;> rfl
    · cases effectiveLocalWindowSize with
      | none => rfl
      | some eff => cases minRTT <;> rfl
    · rfl

/-- C8 witness: a tick with positive duration, a defined effective window,
a defined `recentRTT` but no `minRTT` yet applies no window change. -/
theorem C8_no_window_change_without_data_witness :
    ((none : Option ℚ) = none ∨ (some (5 : ℚ)) = none ∨
        (some (100000 : ℤ)) = none) ∧
      (tick {} (some 5) none 777 0 200 (some 100000)).setWindowSize = none :=
  ⟨Or.inl rfl,
    C8_no_window_change_without_data {} (some 5) none 777 0 200 (some 100000)
      (Or.inl rfl)⟩

/-- C4: on every tick with positive duration, a defined effective window
and both RTT samples established, the tick applies the computed window
size exactly when it exceeds the current effective window (growth,
unconditioned on RTT) or it is below the current effective window and
`recentRTT > minRTT × windowSizeReducingRTTThresholdFactor` (shrink);
otherwise — including `windowSize = eff`, and `windowSize < eff` with
`recentRTT ≤ minRTT × threshold` — no window change is applied. -/
theorem C4_asymmetric_hysteresis (options : AutoWindowSizeOptions)
    (recentRTT minRTT : ℚ) (received : ℕ) (bandwidthCalculatedAt now : ℤ)
    (eff : ℤ) (hd : 0 < now - bandwidthCalculatedAt) :
    (tick options (some recentRTT) (some minRTT) received bandwidthCalculatedAt
        now (some eff)).setWindowSize =
      if max ⌈(received : ℚ) / ((now - bandwidthCalculatedAt : ℤ) : ℚ) * minRTT
              * options.windowSizeFactor⌉ MIN_WINDOW_SIZE_DEFAULT > eff ∨
          (max ⌈(received : ℚ) / ((now - bandwidthCalculatedAt : ℤ) : ℚ) * minRTT
              * options.windowSizeFactor⌉ MIN_WINDOW_SIZE_DEFAULT < eff ∧
            recentRTT > minRTT * options.windowSizeReducingRTTThresholdFactor) then
        some (max ⌈(received : ℚ) / ((now - bandwidthCalculatedAt : ℤ) : ℚ) * minRTT
            * options.windowSizeFactor⌉ MIN_WINDOW_SIZE_DEFAULT)
      else none := by
  simp only [tick]
  rw [if_neg (not_le.mpr hd)]
  split <;> rfl

/-- C4 witness: Scenario-A-style growth tick — `receivedBytes = 1000000`
over `duration = 200` with `minRTT = 50`, `recentRTT = 60`, factor `2` and
effective window `250000` applies `500000`. -/
theorem C4_asymmetric_hysteresis_witness :
    (0 : ℤ) < 200 - 0 ∧
      (tick {} (some 60) (some 50) 1000000 0 200 (some 250000)).setWindowSize =
        some 500000 := by
  refine ⟨by norm_num, ?_⟩
  rw [C4_asymmetric_hysteresis {} 60 50 1000000 0 200 250000 (by norm_num)]
  norm_num [MIN_WINDOW_SIZE_DEFAULT, WINDOW_SIZE_FACTOR_DEFAULT,
    WINDOW_SIZE_REDUCING_RTT_THRESHOLD_FACTOR_DEFAULT]

/-- C7: a probe completion that reports an error leaves all controller
state unchanged (`recentRTT`, `minRTT`, the armed ping schedule, the
accumulator) apart from the probe no longer being in flight, makes no
external call (no ping observer invocation, no window call, no probe), and
a subsequent tick from that state behaves exactly as from the prior state
with the probe retired. -/
theorem C7_probe_error_discards_sample (options : AutoWindowSizeOptions)
    (s : SystemState) :
    (step options s (.pingComplete .failure)).1 =
        { s with probeInFlight := s.probeInFlight - 1 } ∧
      (step options s (.pingComplete .failure)).2 = [] ∧
      (step options s (.pingComplete .failure)).1.recentRTT = s.recentRTT ∧
      (step options s (.pingComplete .failure)).1.minRTT = s.minRTT ∧
      (step options s (.pingComplete .failure)).1.pingTimer = s.pingTimer ∧
      ∀ now effectiveLocalWindowSize,
        step options (step options s (.pingComplete .failure)).1
            (.tickFire now effectiveLocalWindowSize) =
          step options { s with probeInFlight := s.probeInFlight - 1 }
            (.tickFire now effectiveLocalWindowSize) := by
  have hs : (step options s (.pingComplete .failure)).1 =
      { s with probeInFlight := s.probeInFlight - 1 } := by
    simp only [step]
    split
    · rfl
    · rename_i hp
      have h0 : s.probeInFlight = 0 := by omega
      cases s
      simp_all
  refine ⟨hs, ?_, by rw [hs], by rw [hs], by rw [hs], fun now eff => by rw [hs]⟩
  simp only [step]
  split <;> rfl

/-- C3 counterexample: after the session has closed (it is destroyed and
both `close` handlers have cleared their timers), the completion callback
of a probe still in flight is NOT a no-op — on success it updates
`recentRTT` and `minRTT`, invokes the ping observer callback, and re-arms
the ping timer (`update(duration)` runs unconditionally in the source:
the callback never consults `session.destroyed`). -/
theorem C3_inflight_callback_after_close_not_noop :
    (step {} ⟨true, false, none, 1, none, none, 0, 0⟩
        (.pingComplete (.ok 10))).1.recentRTT = some 10 ∧
      (step {} ⟨true, false, none, 1, none, none, 0, 0⟩
        (.pingComplete (.ok 10))).1.minRTT = some 10 ∧
      (step {} ⟨true, false, none, 1, none, none, 0, 0⟩
        (.pingComplete (.ok 10))).2 = [.observerPing 10] ∧
      (step {} ⟨true, false, none, 1, none, none, 0, 0⟩
        (.pingComplete (.ok 10))).1.pingTimer = some 500 := by
  refine ⟨?_, ?_, ?_, ?_⟩ <;>
    norm_num [step, pingDurationCallback, PING_INTERVAL_FACTOR_DEFAULT]

lemma step_closed_inv (options : AutoWindowSizeOptions) (s : SystemState)
    (e : Event) (hc : s.closed = true) (ht : s.tickTimerArmed = false) :
    (step options s e).1.closed = true ∧
      (step options s e).1.tickTimerArmed = false ∧
      Call.issueProbe ∉ (step options s e).2 ∧
      ∀ w, Call.setWindow w ∉ (step options s e).2 := by
  cases e with
  | close => simp [step]
  | dataChunk bytes => cases bytes <;> simp [step, hc, ht]
  | tickFire now eff => simp [step, hc, ht]
  | pingTimerFire =>
    by_cases hp : s.pingTimer.isSome <;> simp [step, hp, hc, ht]
  | pingComplete outcome =>
    cases outcome <;> by_cases hp : 0 < s.probeInFlight <;>
      simp [step, hp, hc, ht]

lemma run_closed_inv (options : AutoWindowSizeOptions) (s : SystemState)
    (es : List Event) (hc : s.closed = true) (ht : s.tickTimerArmed = false) :
    Call.issueProbe ∉ (run options s es).2 ∧
      ∀ w, Call.setWindow w ∉ (run options s es).2 := by
  induction es generalizing s with
  | nil => simp [run]
  | cons e es ih =>
    obtain ⟨h1, h2, h3, h4⟩ := step_closed_inv options s e hc ht
    obtain ⟨ih1, ih2⟩ := ih (step options s e).1 h1 h2
    simp only [run, List.mem_append]
    constructor
    · rintro (h | h)
      · exact h3 h
      · exact ih1 h
    · rintro w (h | h)
      · exact h4 w h
      · exact ih2 w h

/-- C3 amended: after the session's `close` event fires, no further probe
is issued to the session (`ping()` checks `session.destroyed` before
calling `session.ping`) and `setWindowSize` is never called again (the
tick timer is cleared and never re-armed) — for every sequence of
subsequent events. However, the completion callback of a probe already in
flight at close time is not a no-op (see the counterexample): it still
updates `recentRTT`/`minRTT`, invokes the ping observer, and re-arms the
ping timer; that re-armed timer issues no probe once it fires. -/
theorem C3_no_probe_no_window_call_after_close
    (options : AutoWindowSizeOptions) (s : SystemState) (es : List Event) :
    Call.issueProbe ∉ (run options s (Event.close :: es)).2 ∧
      ∀ w, Call.setWindow w ∉ (run options s (Event.close :: es)).2 := by
  have hclose : step options s Event.close =
      ({ s with closed := true, tickTimerArmed := false, pingTimer := none },
        []) := by
    simp [step]
  obtain ⟨h1, h2⟩ := run_closed_inv options
    { s with closed := true, tickTimerArmed := false, pingTimer := none }
    es rfl rfl
  simp only [run, hclose, List.nil_append]
  exact ⟨h1, h2⟩

/-- C9: if `initialWindowSize` is supplied and is below `minWindowSize`,
`setupAutoWindowSize` fails synchronously (the `assert` throws) and
nothing has happened — no window size applied, no probe issued, no timer
armed (the error result carries no state and no calls). Conversely this
configuration check is the only hard failure: whenever it passes (no
initial window size, or one at least the floor), setup succeeds. -/
theorem C9_setup_assert_fails_fast (options : AutoWindowSizeOptions)
    (destroyed : Bool) (now : ℤ) :
    (∀ initialWindowSize : ℤ,
        options.initialWindowSize = some initialWindowSize →
        initialWindowSize < options.minWindowSize →
        setupAutoWindowSize options destroyed now = .error ()) ∧
      ((∀ initialWindowSize : ℤ,
          options.initialWindowSize = some initialWindowSize →
          options.minWindowSize ≤ initialWindowSize) →
        ∃ s calls, setupAutoWindowSize options destroyed now = .ok (s, calls)) := by
  constructor
  · intro iw hiw hlt
    simp only [setupAutoWindowSize, hiw]
    rw [if_neg (not_le.mpr hlt)]
  · intro h
    cases hiw : options.initialWindowSize with
    | none =>
      have hset : setupAutoWindowSize options destroyed now = Except.ok
          ({ closed := destroyed
             tickTimerArmed := true
             pingTimer := some (options.initialPingDurationReference *
               options.pingIntervalFactor)
             probeInFlight := if destroyed then 0 else 1
             recentRTT := none
             minRTT := none
             received := 0
             bandwidthCalculatedAt := now },
            [] ++ if destroyed then [] else [Call.issueProbe]) := by
        simp only [setupAutoWindowSize, hiw]
      exact ⟨_, _, hset⟩
    | some iw =>
      have hset : setupAutoWindowSize options destroyed now = Except.ok
          ({ closed := destroyed
             tickTimerArmed := true
             pingTimer := some (options.initialPingDurationReference *
               options.pingIntervalFactor)
             probeInFlight := if destroyed then 0 else 1
             recentRTT := none
             minRTT := none
             received := 0
             bandwidthCalculatedAt := now },
            [Call.setWindow iw] ++
              if destroyed then [] else [Call.issueProbe]) := by
        simp only [setupAutoWindowSize, hiw]
        rw [if_pos (h iw hiw)]
      exact ⟨_, _, hset⟩

/-- C9 witness: `initialWindowSize = 100` is below the default floor
`65536`, and setup on that configuration is the assertion error. -/
theorem C9_setup_assert_fails_fast_witness :
    ({ initialWindowSize := some 100 } : AutoWindowSizeOptions).initialWindowSize
        = some 100 ∧
      (100 : ℤ) <
        ({ initialWindowSize := some 100 } : AutoWindowSizeOptions).minWindowSize ∧
      setupAutoWindowSize { initialWindowSize := some 100 } false 0 = .error () :=
  ⟨rfl, by decide,
    (C9_setup_assert_fails_fast { initialWindowSize := some 100 } false 0).1
      100 rfl (by decide)⟩

/-- C10: with a valid `initialWindowSize`, setup immediately calls
`setWindowSize(initialWindowSize)` but never invokes the
`onSetLocalWindowSize` observer during setup; and in every step of the
controller, the observer is invoked only together with a `setWindowSize`
call of the same value, and only on a tick event. -/
theorem C10_observer_only_on_tick_changes (options : AutoWindowSizeOptions)
    (initialWindowSize : ℤ) (destroyed : Bool) (now : ℤ)
    (hiw : options.initialWindowSize = some initialWindowSize)
    (hge : options.minWindowSize ≤ initialWindowSize) :
    (∃ s calls, setupAutoWindowSize options destroyed now = .ok (s, calls) ∧
        Call.setWindow initialWindowSize ∈ calls ∧
        ∀ v, Call.observerWindow v ∉ calls) ∧
      (∀ (s : SystemState) (e : Event) (v : ℤ),
        Call.observerWindow v ∈ (step options s e).2 →
          Call.setWindow v ∈ (step options s e).2) ∧
      (∀ (s : SystemState) (e : Event) (v : ℤ),
        Call.observerWindow v ∈ (step options s e).2 →
          ∃ tnow eff, e = Event.tickFire tnow eff) := by
  refine ⟨?_, ?_, ?_⟩
  · have hset : setupAutoWindowSize options destroyed now = Except.ok
        ({ closed := destroyed
           tickTimerArmed := true
           pingTimer := some (options.initialPingDurationReference *
             options.pingIntervalFactor)
           probeInFlight := if destroyed then 0 else 1
           recentRTT := none
           minRTT := none
           received := 0
           bandwidthCalculatedAt := now },
          [Call.setWindow initialWindowSize] ++
            if destroyed then [] else [Call.issueProbe]) := by
      simp only [setupAutoWindowSize, hiw]
      rw [if_pos hge]
    refine ⟨_, _, hset, ?_, ?_⟩
    · simp
    · intro v
      cases destroyed <;> simp
  · intro s e v hv
    cases e with
    | close => simp [step] at hv
    | dataChunk bytes => cases bytes <;> simp [step] at hv
    | tickFire tnow eff =>
      by_cases ha : s.tickTimerArmed
      · simp only [step, if_pos ha] at hv ⊢
        rcases hw : (tick options s.recentRTT s.minRTT s.received
            s.bandwidthCalculatedAt tnow eff).setWindowSize with _ | w
        · simp [hw] at hv
        · simp only [hw] at hv ⊢
          simp at hv
          simp [hv]
      · simp [step, if_neg ha] at hv
    | pingTimerFire =>
      by_cases hp : s.pingTimer.isSome <;>
        by_cases hc : s.closed <;> simp [step, hp, hc] at hv
    | pingComplete outcome =>
      cases outcome <;> by_cases hp : 0 < s.probeInFlight <;>
        simp [step, hp] at hv
  · intro s e v hv
    cases e with
    | close => simp [step] at hv
    | dataChunk bytes => cases bytes <;> simp [step] at hv
    | tickFire tnow eff => exact ⟨tnow, eff, rfl⟩
    | pingTimerFire =>
      by_cases hp : s.pingTimer.isSome <;>
        by_cases hc : s.closed <;> simp [step, hp, hc] at hv
    | pingComplete outcome =>
      cases outcome <;> by_cases hp : 0 < s.probeInFlight <;>
        simp [step, hp] at hv

/-- C10 witness: a valid initial window size `131072` — setup applies it
with no observer invocation. -/
theorem C10_observer_only_on_tick_changes_witness :
    ({ initialWindowSize := some 131072 } : AutoWindowSizeOptions).initialWindowSize
        = some 131072 ∧
      ({ initialWindowSize := some 131072 } : AutoWindowSizeOptions).minWindowSize
        ≤ 131072 ∧
      ∃ s calls,
        setupAutoWindowSize { initialWindowSize := some 131072 } false 0
            = .ok (s, calls) ∧
          Call.setWindow 131072 ∈ calls ∧
          ∀ v, Call.observerWindow v ∉ calls :=
  ⟨rfl, by decide,
    (C10_observer_only_on_tick_changes { initialWindowSize := some 131072 }
      131072 false 0 rfl (by decide)).1⟩

/-- C3 amended, witness: a concrete run — close, then a ping timer fire, a
tick timer fire, an in-flight probe completion and another ping timer fire
— contains no probe issuance and no window call. -/
theorem C3_no_probe_no_window_call_after_close_witness :
    Call.issueProbe ∉ (run {} ⟨false, true, some 5000, 1, none, none, 0, 0⟩
        (Event.close :: [Event.pingTimerFire, Event.tickFire 200 (some 65536),
          Event.pingComplete (.ok 10), Event.pingTimerFire])).2 ∧
      ∀ w, Call.setWindow w ∉
        (run {} ⟨false, true, some 5000, 1, none, none, 0, 0⟩
          (Event.close :: [Event.pingTimerFire, Event.tickFire 200 (some 65536),
            Event.pingComplete (.ok 10), Event.pingTimerFire])).2 :=
  C3_no_probe_no_window_call_after_close {}
    ⟨false, true, some 5000, 1, none, none, 0, 0⟩
    [Event.pingTimerFire, Event.tickFire 200 (some 65536),
      Event.pingComplete (.ok 10), Event.pingTimerFire]

/-- C7 witness: a concrete failed probe completion retires the probe and
changes nothing else, with no external call. -/
theorem C7_probe_error_discards_sample_witness :
    (step {} ⟨false, true, some 5000, 1, some 7, some 3, 42, 0⟩
        (.pingComplete .failure)).1 =
        ⟨false, true, some 5000, 0, some 7, some 3, 42, 0⟩ ∧
      (step {} ⟨false, true, some 5000, 1, some 7, some 3, 42, 0⟩
        (.pingComplete .failure)).2 = [] := by
  have h := C7_probe_error_discards_sample {}
    ⟨false, true, some 5000, 1, some 7, some 3, 42, 0⟩
  refine ⟨?_, h.2.1⟩
  rw [h.1]
  rfl
